import Mathlib

/-!
# go-opik: evaluation provider, debug transport, update payload encoding

A shallow embedding of the parts of the repository that the verified
properties are about.

* `Omnillm`: `integrations/omnillm/provider.go` (`Provider`, its options and
  `Provider.Complete`).
* `DebugTransport`: the `debugTransport` round tripper of
  `examples/connectivity-test/main.go` and of
  `examples/debug-test/test_full_flow.go`.
* `Api`: the update payload of `internal/api` as it is constructed in
  `examples/debug-test/test_json_encode.go`.
-/

namespace Omnillm

/-! ## integrations/omnillm/provider.go -/

/-- The error values of Go, kept as their message. -/
abbrev GoError := String

/-- A message of `llm.CompletionRequest` (fields `Role` and `Content` are the
ones `Complete` reads). -/
structure LlmMessage where
  Role : String
  Content : String
  deriving DecidableEq, Repr

/-- Type `provider.Message` of omnillm: `Role` is `provider.Role(m.Role)`, a
string type. -/
structure Message where
  Role : String
  Content : String
  deriving DecidableEq, Repr

/-- Type `llm.CompletionRequest`, with the fields `Complete` reads. The
temperature is a `float64` in the source; it is only compared with zero and
copied, and is taken here as a rational number. `MaxTokens` is a Go `int`; it
is only compared with zero and copied. -/
structure CompletionRequest where
  Model : String
  Messages : List LlmMessage
  Temperature : ℚ
  MaxTokens : Int
  deriving DecidableEq, Repr

/-- Type `provider.ChatCompletionRequest` of omnillm, with the fields
`Complete` writes. `Temperature` and `MaxTokens` are pointers in the source
(`*float64`, `*int`): `none` is the nil pointer, the field left unset. -/
structure ChatCompletionRequest where
  Model : String
  Messages : List Message
  Temperature : Option ℚ
  MaxTokens : Option Int
  deriving DecidableEq, Repr

/-- One entry of `resp.Choices`. -/
structure Choice where
  Message : Message
  deriving DecidableEq, Repr

/-- The field `resp.Usage`. -/
structure Usage where
  PromptTokens : Int
  CompletionTokens : Int
  deriving DecidableEq, Repr

/-- The response of `CreateChatCompletion`, with the fields `Complete` reads. -/
structure ChatCompletionResponse where
  Choices : List Choice
  Model : String
  Usage : Usage
  deriving DecidableEq, Repr

/-- Type `llm.CompletionResponse`. -/
structure CompletionResponse where
  Content : String
  Model : String
  PromptTokens : Int
  OutputTokens : Int
  deriving DecidableEq, Repr

/-- The `omnillm.ChatClient` the provider holds. The client is a library
outside the repository and is a parameter: its one method used here, a step
on the state `σ` of the client (its connections, the remote model) that
answers the request it is sent with `(resp, err)`. -/
structure ChatClient (σ : Type) where
  CreateChatCompletion :
    ChatCompletionRequest → σ → Except GoError ChatCompletionResponse × σ

/-- The struct `Provider`. -/
structure Provider (σ : Type) where
  client : ChatClient σ
  model : String
  temperature : ℚ
  maxTokens : Int

/-- The type `Option func(*Provider)`: an update of the provider. -/
abbrev ProviderOption (σ : Type) := Provider σ → Provider σ

/-- The option `WithModel`. -/
def WithModel {σ : Type} (model : String) : ProviderOption σ :=
  fun p => { p with model := model }

/-- The option `WithTemperature`. -/
def WithTemperature {σ : Type} (temp : ℚ) : ProviderOption σ :=
  fun p => { p with temperature := temp }

/-- The option `WithMaxTokens`. -/
def WithMaxTokens {σ : Type} (max : Int) : ProviderOption σ :=
  fun p => { p with maxTokens := max }

/-- The constructor `NewProvider`: the zero provider around `client`, with the
options applied in order. -/
def NewProvider {σ : Type} (client : ChatClient σ) (opts : List (ProviderOption σ)) :
    Provider σ :=
  opts.foldl (fun p opt => opt p)
    { client := client, model := "", temperature := 0, maxTokens := 0 }

/-- The state a `Complete` runs in: the requests the chat client has been
sent so far (in order), and the state of the chat client. -/
structure World (σ : Type) where
  calls : List ChatCompletionRequest
  inner : σ

/-- The call `p.client.CreateChatCompletion(ctx, omnillmReq)`: one step of the
chat client on the request it is handed, which is recorded in `calls`. -/
def callCreateChatCompletion {σ : Type} (c : ChatClient σ) (r : ChatCompletionRequest)
    (w : World σ) : Except GoError ChatCompletionResponse × World σ :=
  let a := c.CreateChatCompletion r w.inner
  (a.1, { calls := w.calls ++ [r], inner := a.2 })

/-- The request `Provider.Complete` builds (lines 59 to 93 of provider.go):
the messages are converted, then model, temperature and max-tokens fall back
to the provider defaults. -/
def Provider.omnillmReq {σ : Type} (p : Provider σ) (req : CompletionRequest) :
    ChatCompletionRequest :=
  let messages : List Message :=
    req.Messages.map (fun m => { Role := m.Role, Content := m.Content })
  let omnillmReq : ChatCompletionRequest :=
    { Model := req.Model, Messages := messages, Temperature := none, MaxTokens := none }
  let omnillmReq : ChatCompletionRequest :=
    if omnillmReq.Model = "" ∧ p.model ≠ "" then
      { omnillmReq with Model := p.model }
    else omnillmReq
  let temp : ℚ := req.Temperature
  let temp : ℚ := if temp = 0 ∧ p.temperature ≠ 0 then p.temperature else temp
  let omnillmReq : ChatCompletionRequest :=
    if temp ≠ 0 then { omnillmReq with Temperature := some temp } else omnillmReq
  let maxTokens : Int := req.MaxTokens
  let maxTokens : Int :=
    if maxTokens = 0 ∧ p.maxTokens ≠ 0 then p.maxTokens else maxTokens
  let omnillmReq : ChatCompletionRequest :=
    if maxTokens ≠ 0 then { omnillmReq with MaxTokens := some maxTokens } else omnillmReq
  omnillmReq

/-- The response `Provider.Complete` makes of the answer of the client (lines
101 to 112 of provider.go): the content of the first choice, or the empty
string when there is no choice, with model and token counts. -/
def completionResponse (resp : ChatCompletionResponse) : CompletionResponse :=
  let content : String :=
    match resp.Choices with
    | c :: _ => c.Message.Content
    | [] => ""
  { Content := content
    Model := resp.Model
    PromptTokens := resp.Usage.PromptTokens
    OutputTokens := resp.Usage.CompletionTokens }

/-- The method `Provider.Complete`: build the request, make the call of the
client with it, return the error of the call or the converted answer. -/
def Provider.Complete {σ : Type} (p : Provider σ) (req : CompletionRequest) (w : World σ) :
    Except GoError CompletionResponse × World σ :=
  let omnillmReq := p.omnillmReq req
  let (r, w) := callCreateChatCompletion p.client omnillmReq w
  match r with
  | .error err => (.error err, w)
  | .ok resp => (.ok (completionResponse resp), w)

/-- A chat client for examples: its state counts the calls; it refuses a
request without a model and otherwise answers with one choice that repeats
the model and the temperature it was sent. -/
def echoClient : ChatClient Nat :=
  { CreateChatCompletion := fun r n =>
      if r.Model = "" then (.error "model is required", n + 1)
      else
        (.ok { Choices := [{ Message :=
                  { Role := "assistant"
                    Content := r.Model ++ (if r.Temperature = none then "" else " with temperature") } }]
               Model := r.Model
               Usage := { PromptTokens := 1, CompletionTokens := 1 } }, n + 1) }

/-- The method `Provider.Name`. -/
def Provider.Name {σ : Type} (_p : Provider σ) : String := "omnillm"

/-- The method `Provider.DefaultModel`. -/
def Provider.DefaultModel {σ : Type} (p : Provider σ) : String := p.model

end Omnillm

namespace DebugTransport

/-! ## The `debugTransport` of the example programs -/

/-- The error values of Go, kept as their message. -/
abbrev GoError := String

/-- An outgoing `*http.Request`, with what a dump of it shows. -/
structure Request where
  Method : String
  URL : String
  Header : List (String × String)
  Body : String
  deriving DecidableEq, Repr

/-- An `*http.Response`. -/
structure Response where
  StatusCode : Int
  Header : List (String × String)
  Body : String
  deriving DecidableEq, Repr

/-- The pair `(*http.Response, error)` a `RoundTrip` returns; `none` is nil.
Go lets both be nil or both be non-nil. -/
abbrev Result := Option Response × Option GoError

/-- An `http.RoundTripper`: the wrapped transport (`http.DefaultTransport` in
the programs). It lives outside the repository and is a parameter: a step on
its own state `σ` (connections, the network) that answers a request. -/
structure RoundTripper (σ : Type) where
  RoundTrip : Request → σ → Result × σ

/-- The state a `RoundTrip` of the debug transport runs in: what was printed
to standard output, the requests handed to the wrapped transport so far (in
order), and the state of the wrapped transport. -/
structure World (σ : Type) where
  stdout : List String
  calls : List Request
  inner : σ

/-- The struct `debugTransport`: its one field is the wrapped transport. -/
structure debugTransport (σ : Type) where
  transport : RoundTripper σ

/-- The call `d.transport.RoundTrip(req)`: one step of the wrapped transport,
recorded in `calls`. -/
def callTransport {σ : Type} (t : RoundTripper σ) (req : Request) (w : World σ) :
    Result × World σ :=
  let r := t.RoundTrip req w.inner
  (r.1, { w with calls := w.calls ++ [req], inner := r.2 })

/-- The call `fmt.Printf`, with the text already formatted. -/
def printf {σ : Type} (text : String) (w : World σ) : World σ :=
  { w with stdout := w.stdout ++ [text] }

/-- The method `debugTransport.RoundTrip` of
`examples/connectivity-test/main.go`. The library function
`httputil.DumpRequestOut` is the parameter `DumpRequestOut`: the text of its
dump (its error is dropped by the source); it leaves the request as it was. -/
def debugTransport.RoundTrip {σ : Type} (DumpRequestOut : Request → Bool → String)
    (d : debugTransport σ) (req : Request) (w : World σ) : Result × World σ :=
  let dump := DumpRequestOut req false
  let w := printf ("=== REQUEST ===\n" ++ dump ++ "\n") w
  let (r, w) := callTransport d.transport req w
  match r.2 with
  | some err => ((none, some err), w)
  | none => ((r.1, none), w)

/-- How a call of Go ends: it returns, or it panics. -/
inductive Outcome (α : Type) where
  | returned (value : α)
  | panicked (message : String)
  deriving DecidableEq, Repr

/-- The method `debugTransport.RoundTrip` of
`examples/debug-test/test_full_flow.go`: the dump includes the body, the
error is printed, and the status code of the response is printed, which
dereferences `resp`. -/
def debugTransport.RoundTripFullFlow {σ : Type} (DumpRequestOut : Request → Bool → String)
    (d : debugTransport σ) (req : Request) (w : World σ) : Outcome Result × World σ :=
  let dump := DumpRequestOut req true
  let w := printf ("\n=== REQUEST ===\n" ++ dump ++ "\n") w
  let (r, w) := callTransport d.transport req w
  match r.2 with
  | some err => (.returned (none, some err), printf ("=== ERROR: " ++ err ++ " ===\n") w)
  | none =>
    match r.1 with
    | none => (.panicked "runtime error: invalid memory address or nil pointer dereference", w)
    | some resp =>
      (.returned (some resp, none),
        printf ("=== RESPONSE Status: " ++ toString resp.StatusCode ++ " ===\n") w)

/-- A wrapped transport for examples: its state counts the calls; it fails on
an empty URL and otherwise answers 200 with the URL as body. -/
def sampleTransport : RoundTripper Nat :=
  { RoundTrip := fun req n =>
      if req.URL = "" then ((none, some "unsupported protocol scheme"), n + 1)
      else ((some { StatusCode := 200, Header := [], Body := req.URL }, none), n + 1) }

/-- A dump for examples: method and URL, and the body when asked for. -/
def sampleDump (req : Request) (body : Bool) : String :=
  req.Method ++ " " ++ req.URL ++ (if body then "\n" ++ req.Body else "")

end DebugTransport

namespace Api

/-! ## The update payload of `internal/api`

Package `internal/api` is not among the sources; only its use in
`examples/debug-test/test_json_encode.go` is. The types and their encoder are
modelled from the specification and from that use. -/

/-- Modelled from the spec: the type `api.JsonListString` of `internal/api`
(absent from the sources), the representation of a nullable wire field
(input, output, metadata). The spec calls it a "raw-bytes-or-unset
representation": the field is left unset, or holds the raw bytes that stand
for it on the wire. `api.JsonListString([]byte("null"))` is `raw "null"` and
the value `api.JsonListString{}` is `raw ""`. -/
inductive JsonListString where
  | unset
  | raw (bytes : String)
  deriving DecidableEq, Repr

/-- The three states of a nullable wire field in the specification. -/
inductive TriState where
  | absent
  | explicitNull
  | present
  deriving DecidableEq, Repr

/-- The state of the specification a field value stands for: unset is absent,
the bytes `null` are explicit-null, other non-empty bytes are a present value.
Empty raw bytes are none of the three (the "empty" fourth state of the
specification's design notes). -/
def JsonListString.state : JsonListString → Option TriState
  | .unset => some .absent
  | .raw bytes =>
    if bytes = "" then none
    else if bytes = "null" then some .explicitNull
    else some .present

/-- Modelled from the spec: the type `api.OptDateTime` of `internal/api`
(absent from the sources), an optional time; `Value` is the RFC 3339 text of
the time. -/
structure OptDateTime where
  Value : String
  Set : Bool
  deriving DecidableEq, Repr

/-- Modelled from the spec: the constructor `api.NewOptDateTime` (absent from
the sources): a set value. -/
def NewOptDateTime (v : String) : OptDateTime :=
  { Value := v, Set := true }

/-- Modelled from the spec: the type `api.TraceUpdate` (absent from the
sources), with the fields the example constructs: end time and the three
nullable fields. -/
structure TraceUpdate where
  EndTime : OptDateTime
  Input : JsonListString
  Output : JsonListString
  Metadata : JsonListString
  deriving DecidableEq, Repr

/-- Modelled from the spec: the type `api.TraceBatchUpdate` (absent from the
sources): "a sequence of trace IDs plus a shared/partial update payload". The
IDs are kept as their text. -/
structure TraceBatchUpdate where
  Ids : List String
  Update : TraceUpdate
  deriving DecidableEq, Repr

/-- One member of an encoded JSON object: the key, and the bytes written for
its content after the colon. -/
structure Member where
  key : String
  content : String
  deriving DecidableEq, Repr

/-- A JSON string literal (of a text without characters to escape). -/
def quote (s : String) : String := "\"" ++ s ++ "\""

/-- The text of a JSON object with the given members, in order. -/
def renderObject (members : List Member) : String :=
  "\x7b" ++ ",".intercalate (members.map (fun m => quote m.key ++ ":" ++ m.content)) ++ "\x7d"

/-- The text of a JSON array with the given elements, in order. -/
def renderArray (elements : List String) : String :=
  "[" ++ ",".intercalate elements ++ "]"

/-- Modelled from the spec: the encoder of a nullable field in `internal/api`
(absent from the sources). An absent (unset) field emits no key. A field that
holds raw bytes emits its key followed by those bytes as they are: this is
how `raw "null"` is "the literal null" and a present value is "the contained
value", and also how, in the spec's words on the source, "an empty raw-bytes
placeholder produced malformed JSON instead of a null literal". -/
def JsonListString.encodeField (key : String) : JsonListString → List Member
  | .unset => []
  | .raw bytes => [{ key := key, content := bytes }]

/-- Modelled from the spec: the encoder of an optional time (absent from the
sources): no key when not set, else the time as a JSON string. -/
def OptDateTime.encodeField (key : String) (o : OptDateTime) : List Member :=
  if o.Set then [{ key := key, content := quote o.Value }] else []

/-- Modelled from the spec: the members the encoder of `api.TraceUpdate`
(absent from the sources) writes, in order. -/
def TraceUpdate.encodeFields (u : TraceUpdate) : List Member :=
  u.EndTime.encodeField "end_time" ++ u.Input.encodeField "input" ++
    u.Output.encodeField "output" ++ u.Metadata.encodeField "metadata"

/-- Modelled from the spec: the JSON text of an `api.TraceUpdate` (its
encoder is absent from the sources). -/
def TraceUpdate.encode (u : TraceUpdate) : String :=
  renderObject u.encodeFields

/-- Modelled from the spec: the JSON text of an `api.TraceBatchUpdate` (its
encoder is absent from the sources): the IDs and the update object, in
compact form (the example prints it indented). -/
def TraceBatchUpdate.encode (b : TraceBatchUpdate) : String :=
  renderObject
    [ { key := "ids", content := renderArray (b.Ids.map quote) },
      { key := "update", content := b.Update.encode } ]

/-- The contents written for `key` in a list of members, in order: empty when
the key is omitted. -/
def contentsOf (key : String) (members : List Member) : List String :=
  (members.filter (fun m => m.key = key)).map (fun m => m.content)

/-- The update of the example's second request
(`examples/debug-test/test_json_encode.go`, lines 40 to 52) for an end time
and an output: input and metadata are the bytes `null`. -/
def nullFieldsUpdate (endTime : String) (output : String) : TraceUpdate :=
  { EndTime := NewOptDateTime endTime
    Input := .raw "null"
    Output := .raw output
    Metadata := .raw "null" }

/-- The update of the example's third request
(`examples/debug-test/test_json_encode.go`, lines 61 to 71): input and
metadata are `api.JsonListString{}`. -/
def emptyFieldsUpdate (endTime : String) (output : String) : TraceUpdate :=
  { EndTime := NewOptDateTime endTime
    Input := .raw ""
    Output := .raw output
    Metadata := .raw "" }

end Api

/-! # Theorems -/

namespace Omnillm

/-! ### Properties of `Provider.Complete` -/

/-- What `Complete` does with the client: the one request it hands to it is
the one it built, the client makes one step on that request, and the result
is the error of that step or its answer converted. -/
theorem Complete_calls_client {σ : Type} (p : Provider σ) (req : CompletionRequest)
    (w : World σ) :
    (p.Complete req w).2.calls = w.calls ++ [p.omnillmReq req] ∧
      (p.Complete req w).2.inner =
        (p.client.CreateChatCompletion (p.omnillmReq req) w.inner).2 ∧
      (p.Complete req w).1 =
        (p.client.CreateChatCompletion (p.omnillmReq req) w.inner).1.map completionResponse := by
  unfold Provider.Complete callCreateChatCompletion
  simp only []
  cases h : (p.client.CreateChatCompletion (p.omnillmReq req) w.inner).1 <;>
    exact ⟨rfl, rfl, rfl⟩

/-- The model of the built request: the provider default replaces only an
empty request model. -/
theorem omnillmReq_Model {σ : Type} (p : Provider σ) (req : CompletionRequest) :
    (p.omnillmReq req).Model =
      if req.Model ≠ "" then req.Model else if p.model ≠ "" then p.model else "" := by
  unfold Provider.omnillmReq
  simp only []
  split_ifs <;> simp_all

/-- The temperature of the built request: the request value when non-zero,
else the provider default when non-zero, else unset. -/
theorem omnillmReq_Temperature {σ : Type} (p : Provider σ) (req : CompletionRequest) :
    (p.omnillmReq req).Temperature =
      if req.Temperature ≠ 0 then some req.Temperature
        else if p.temperature ≠ 0 then some p.temperature else none := by
  unfold Provider.omnillmReq
  simp only []
  split_ifs <;> simp_all

/-- The max-tokens of the built request: the request value when non-zero,
else the provider default when non-zero, else unset. -/
theorem omnillmReq_MaxTokens {σ : Type} (p : Provider σ) (req : CompletionRequest) :
    (p.omnillmReq req).MaxTokens =
      if req.MaxTokens ≠ 0 then some req.MaxTokens
        else if p.maxTokens ≠ 0 then some p.maxTokens else none := by
  unfold Provider.omnillmReq
  simp only []
  split_ifs <;> simp_all

/-- A provider built by `NewProvider` with `WithTemperature t` as its last
option is the provider of the other options with its temperature set to
`t`. -/
theorem NewProvider_WithTemperature {σ : Type} (client : ChatClient σ)
    (opts : List (ProviderOption σ)) (t : ℚ) :
    NewProvider client (opts ++ [WithTemperature t]) =
      WithTemperature t (NewProvider client opts) := by
  simp [NewProvider, List.foldl_append]

/-- C1: for every provider `p` (around any chat client), request `req` and
state, `Provider.Complete` hands the chat client exactly one request `r`: the
log of requests the client was handed grows by `r` alone, the client makes
its one step on `r`, and what `Complete` returns is the error of that step or
its answer converted. The model of `r` is `req.Model` when that is non-empty,
`p.model` when `req.Model` is empty and `p.model` is not, and the empty
string when both are empty. -/
theorem Complete_sends_model {σ : Type} (p : Provider σ) (req : CompletionRequest)
    (w : World σ) :
    ∃ r : ChatCompletionRequest,
      r.Model =
          (if req.Model ≠ "" then req.Model else if p.model ≠ "" then p.model else "") ∧
        (p.Complete req w).2.calls = w.calls ++ [r] ∧
        (p.Complete req w).2.inner = (p.client.CreateChatCompletion r w.inner).2 ∧
        (p.Complete req w).1 =
          (p.client.CreateChatCompletion r w.inner).1.map completionResponse :=
  ⟨p.omnillmReq req, omnillmReq_Model p req, Complete_calls_client p req w⟩

/-- C2: for every provider `p` (around any chat client), request `req` and
state, `Provider.Complete` hands the chat client exactly one request `r` (the
log grows by `r` alone, the client makes its one step on `r`, and the result
is that of this step), whose temperature is `req.Temperature` when that is
non-zero, otherwise `p.temperature` when that is non-zero, and otherwise unset
(nil); it is unset exactly when both are zero. And a request of temperature 0
through a provider configured by `WithTemperature t`, `t ≠ 0`, reaches the
client with temperature `t`. -/
theorem Complete_sends_temperature {σ : Type} (p : Provider σ) (req : CompletionRequest)
    (w : World σ) :
    (∃ r : ChatCompletionRequest,
      r.Temperature =
          (if req.Temperature ≠ 0 then some req.Temperature
            else if p.temperature ≠ 0 then some p.temperature else none) ∧
        (r.Temperature = none ↔ req.Temperature = 0 ∧ p.temperature = 0) ∧
        (p.Complete req w).2.calls = w.calls ++ [r] ∧
        (p.Complete req w).2.inner = (p.client.CreateChatCompletion r w.inner).2 ∧
        (p.Complete req w).1 =
          (p.client.CreateChatCompletion r w.inner).1.map completionResponse) ∧
      ∀ t : ℚ, t ≠ 0 →
        ∃ r : ChatCompletionRequest,
          r.Temperature = some t ∧
            ((WithTemperature t p).Complete { req with Temperature := 0 } w).2.calls =
              w.calls ++ [r] ∧
            ((WithTemperature t p).Complete { req with Temperature := 0 } w).2.inner =
              (p.client.CreateChatCompletion r w.inner).2 ∧
            ((WithTemperature t p).Complete { req with Temperature := 0 } w).1 =
              (p.client.CreateChatCompletion r w.inner).1.map completionResponse := by
  refine ⟨⟨p.omnillmReq req, omnillmReq_Temperature p req, ?_, Complete_calls_client p req w⟩, ?_⟩
  · rw [omnillmReq_Temperature]
    split_ifs <;> simp_all
  · intro t ht
    refine ⟨(WithTemperature t p).omnillmReq { req with Temperature := 0 }, ?_,
      Complete_calls_client (WithTemperature t p) { req with Temperature := 0 } w⟩
    rw [omnillmReq_Temperature]
    simp [WithTemperature, ht]

/-- C3: for every provider `p` (around any chat client), request `req` and
state, `Provider.Complete` hands the chat client exactly one request `r` (the
log grows by `r` alone, the client makes its one step on `r`, and the result
is that of this step), whose max-tokens is `req.MaxTokens` when that is
non-zero, otherwise `p.maxTokens` when that is non-zero, and otherwise unset
(nil); it is unset exactly when both are zero, and when set it is never
zero. -/
theorem Complete_sends_maxTokens {σ : Type} (p : Provider σ) (req : CompletionRequest)
    (w : World σ) :
    ∃ r : ChatCompletionRequest,
      r.MaxTokens =
          (if req.MaxTokens ≠ 0 then some req.MaxTokens
            else if p.maxTokens ≠ 0 then some p.maxTokens else none) ∧
        (r.MaxTokens = none ↔ req.MaxTokens = 0 ∧ p.maxTokens = 0) ∧
        r.MaxTokens ≠ some 0 ∧
        (p.Complete req w).2.calls = w.calls ++ [r] ∧
        (p.Complete req w).2.inner = (p.client.CreateChatCompletion r w.inner).2 ∧
        (p.Complete req w).1 =
          (p.client.CreateChatCompletion r w.inner).1.map completionResponse := by
  refine ⟨p.omnillmReq req, omnillmReq_MaxTokens p req, ?_, ?_, Complete_calls_client p req w⟩
  · rw [omnillmReq_MaxTokens]
    split_ifs <;> simp_all
  · rw [omnillmReq_MaxTokens]
    split_ifs <;> simp_all

/-- An instance of C2: a request of temperature 0 for the model `gpt-4o`,
through a provider configured with temperature 7/10 around the example
client, reaches the client with temperature 7/10. -/
theorem Complete_sends_temperature_witness :
    ∃ r : ChatCompletionRequest,
      r.Temperature = some (7 / 10) ∧
        ((WithTemperature (7 / 10) (NewProvider echoClient [])).Complete
            { Model := "gpt-4o", Messages := [], Temperature := 0, MaxTokens := 0 }
            { calls := [], inner := 0 }).2.calls = [] ++ [r] ∧
        ((WithTemperature (7 / 10) (NewProvider echoClient [])).Complete
            { Model := "gpt-4o", Messages := [], Temperature := 0, MaxTokens := 0 }
            { calls := [], inner := 0 }).2.inner =
          (echoClient.CreateChatCompletion r 0).2 ∧
        ((WithTemperature (7 / 10) (NewProvider echoClient [])).Complete
            { Model := "gpt-4o", Messages := [], Temperature := 0, MaxTokens := 0 }
            { calls := [], inner := 0 }).1 =
          (echoClient.CreateChatCompletion r 0).1.map completionResponse :=
  (Complete_sends_temperature (NewProvider echoClient [])
    { Model := "gpt-4o", Messages := [], Temperature := 0, MaxTokens := 0 }
    { calls := [], inner := 0 }).2 (7 / 10) (by norm_num)

/-- The example client is told apart by what reaches it: through a provider
with the default model `gpt-4o` and temperature 7/10, an empty request gets
the answer the client gives to that model with a temperature. -/
theorem Complete_echo_example :
    ((WithTemperature (7 / 10) (WithModel "gpt-4o" (NewProvider echoClient []))).Complete
        { Model := "", Messages := [], Temperature := 0, MaxTokens := 0 }
        { calls := [], inner := 0 }).1 =
      .ok { Content := "gpt-4o with temperature", Model := "gpt-4o"
            PromptTokens := 1, OutputTokens := 1 } := by
  rw [(Complete_calls_client _ _ _).2.2]
  simp [Provider.omnillmReq, WithTemperature, WithModel, NewProvider, echoClient,
    completionResponse, Except.map]

end Omnillm

namespace DebugTransport

/-! ### Properties of `debugTransport.RoundTrip` -/

/-- C7: the debug transport is transparent. For every request, `RoundTrip`
hands that request to the wrapped transport exactly once (the log of calls
grows by that one request and the wrapped transport makes one step); if the
wrapped transport returns an error, `RoundTrip` returns a nil response and
that error; otherwise it returns the response of the wrapped transport
unchanged, with a nil error. -/
theorem debugTransport_transparent {σ : Type} (DumpRequestOut : Request → Bool → String)
    (d : debugTransport σ) (req : Request) (w : World σ) :
    (d.RoundTrip DumpRequestOut req w).2.calls = w.calls ++ [req] ∧
      (d.RoundTrip DumpRequestOut req w).2.inner = (d.transport.RoundTrip req w.inner).2 ∧
      (∀ err, (d.transport.RoundTrip req w.inner).1.2 = some err →
        (d.RoundTrip DumpRequestOut req w).1 = (none, some err)) ∧
      ((d.transport.RoundTrip req w.inner).1.2 = none →
        (d.RoundTrip DumpRequestOut req w).1 = ((d.transport.RoundTrip req w.inner).1.1, none)) := by
  unfold debugTransport.RoundTrip callTransport printf
  simp only []
  refine ⟨?_, ?_, ?_, ?_⟩
  · split <;> rfl
  · split <;> rfl
  · intro err h
    simp [h]
  · intro h
    simp [h]

/-- An instance of C7, at a request the wrapped transport refuses and at one
it answers. -/
theorem debugTransport_transparent_witness :
    ((debugTransport.mk sampleTransport).RoundTrip sampleDump
        { Method := "GET", URL := "", Header := [], Body := "" }
        { stdout := [], calls := [], inner := 0 }).1 =
      (none, some "unsupported protocol scheme") ∧
    ((debugTransport.mk sampleTransport).RoundTrip sampleDump
        { Method := "GET", URL := "https://www.comet.com/opik/api", Header := [], Body := "" }
        { stdout := [], calls := [], inner := 0 }).1 =
      (some { StatusCode := 200, Header := [], Body := "https://www.comet.com/opik/api" }, none) :=
  ⟨(debugTransport_transparent sampleDump (debugTransport.mk sampleTransport)
      { Method := "GET", URL := "", Header := [], Body := "" }
      { stdout := [], calls := [], inner := 0 }).2.2.1 "unsupported protocol scheme" (by decide),
   (debugTransport_transparent sampleDump (debugTransport.mk sampleTransport)
      { Method := "GET", URL := "https://www.comet.com/opik/api", Header := [], Body := "" }
      { stdout := [], calls := [], inner := 0 }).2.2.2 (by decide)⟩

/-- The copy of the debug transport in `test_full_flow.go` is transparent in
the same way for a wrapped transport that keeps the contract of
`http.RoundTripper` (a nil response comes with a non-nil error). -/
theorem RoundTripFullFlow_transparent {σ : Type} (DumpRequestOut : Request → Bool → String)
    (d : debugTransport σ) (req : Request) (w : World σ)
    (contract : (d.transport.RoundTrip req w.inner).1.1 = none →
      (d.transport.RoundTrip req w.inner).1.2 ≠ none) :
    (d.RoundTripFullFlow DumpRequestOut req w).2.calls = w.calls ++ [req] ∧
      (d.RoundTripFullFlow DumpRequestOut req w).2.inner = (d.transport.RoundTrip req w.inner).2 ∧
      (∀ err, (d.transport.RoundTrip req w.inner).1.2 = some err →
        (d.RoundTripFullFlow DumpRequestOut req w).1 = .returned (none, some err)) ∧
      ((d.transport.RoundTrip req w.inner).1.2 = none →
        (d.RoundTripFullFlow DumpRequestOut req w).1 =
          .returned ((d.transport.RoundTrip req w.inner).1.1, none)) := by
  unfold debugTransport.RoundTripFullFlow callTransport printf
  simp only []
  refine ⟨?_, ?_, ?_, ?_⟩
  · split
    · rfl
    · split <;> rfl
  · split
    · rfl
    · split <;> rfl
  · intro err h
    simp [h]
  · intro h
    cases h1 : (d.transport.RoundTrip req w.inner).1.1 with
    | none => exact absurd h (contract h1)
    | some resp => simp [h, h1]

/-- The copy in `test_full_flow.go` reads the status code of the response: on
a wrapped transport that returns a nil response with a nil error it stops
with a nil dereference. -/
theorem RoundTripFullFlow_nil_nil {σ : Type} (DumpRequestOut : Request → Bool → String)
    (d : debugTransport σ) (req : Request) (w : World σ)
    (h : (d.transport.RoundTrip req w.inner).1 = (none, none)) :
    (d.RoundTripFullFlow DumpRequestOut req w).1 =
      .panicked "runtime error: invalid memory address or nil pointer dereference" := by
  unfold debugTransport.RoundTripFullFlow callTransport printf
  simp [h]

end DebugTransport

namespace Api

/-! ### Properties of the update payload encoding -/

/-- A field in one of the three states of the specification never has empty
content written for its key: absent writes no member, explicit-null and
present write non-empty bytes. -/
theorem encodeField_content_nonempty (key : String) (f : JsonListString)
    (h : f.state ≠ none) : ∀ m ∈ f.encodeField key, m.content ≠ "" := by
  cases f with
  | unset => simp [JsonListString.encodeField]
  | raw bytes =>
    intro m hm
    simp only [JsonListString.encodeField, List.mem_singleton] at hm
    subst hm
    intro hb
    simp only at hb
    simp [JsonListString.state, hb] at h

/-- An absent field writes no member; an explicit-null field writes the
literal `null`. -/
theorem encodeField_absent_and_null (key : String) :
    JsonListString.unset.encodeField key = [] ∧
      (JsonListString.raw "null").encodeField key = [{ key := key, content := "null" }] ∧
      (JsonListString.raw "null").state = some .explicitNull :=
  ⟨rfl, rfl, by decide⟩

/-- C4: an update with `EndTime` set, `Input` explicit-null and `Output`
present with the given bytes (and any metadata), inside a batch update,
encodes to the text of an object whose `update` member is an object in which
the key `input` stands with the literal `null` and the key `output` with
exactly the given bytes, after `end_time` and before the metadata member if
there is one; neither key is omitted. Among the members written, `input`
occurs exactly once, with content `null`, and `output` exactly once, with
exactly the given bytes. -/
theorem update_encodes_null_input_and_given_output (ids : List String)
    (endTime output : String) (metadata : JsonListString) :
    TraceBatchUpdate.encode
        { Ids := ids
          Update :=
            { EndTime := NewOptDateTime endTime, Input := .raw "null"
              Output := .raw output, Metadata := metadata } } =
        "\x7b\"ids\":[" ++ ",".intercalate (ids.map (fun i => "\"" ++ i ++ "\"")) ++
          "],\"update\":\x7b\"end_time\":\"" ++ endTime ++
          "\",\"input\":null,\"output\":" ++ output ++
          (match metadata with
            | .unset => ""
            | .raw bytes => ",\"metadata\":" ++ bytes) ++ "\x7d\x7d" ∧
      contentsOf "input"
        (TraceUpdate.encodeFields
          { EndTime := NewOptDateTime endTime, Input := .raw "null"
            Output := .raw output, Metadata := metadata }) = ["null"] ∧
      contentsOf "output"
        (TraceUpdate.encodeFields
          { EndTime := NewOptDateTime endTime, Input := .raw "null"
            Output := .raw output, Metadata := metadata }) = [output] := by
  refine ⟨?_, ?_, ?_⟩
  · cases metadata <;>
    · apply String.ext
      simp only [TraceBatchUpdate.encode, TraceUpdate.encode, renderObject, renderArray,
        TraceUpdate.encodeFields, JsonListString.encodeField, OptDateTime.encodeField,
        NewOptDateTime, quote, List.map, List.append, List.cons_append, List.nil_append,
        List.append_nil, if_true, String.intercalate, String.intercalate.go,
        String.data_append, List.append_assoc]
      rfl
  · cases metadata <;>
      simp [contentsOf, TraceUpdate.encodeFields, JsonListString.encodeField,
        OptDateTime.encodeField, NewOptDateTime, List.filter]
  · cases metadata <;>
      simp [contentsOf, TraceUpdate.encodeFields, JsonListString.encodeField,
        OptDateTime.encodeField, NewOptDateTime, List.filter]

/-- The JSON text of the example's second request: `input` is `null` and
`output` is the given object. -/
theorem nullFieldsUpdate_text :
    TraceBatchUpdate.encode
        { Ids := ["0193a1b2-0000-7000-8000-000000000001"]
          Update := nullFieldsUpdate "2025-01-01T00:00:00Z" "\x7b\"result\":\"test\"\x7d" } =
      "\x7b\"ids\":[\"0193a1b2-0000-7000-8000-000000000001\"],\"update\":\x7b\"end_time\":\"2025-01-01T00:00:00Z\",\"input\":null,\"output\":\x7b\"result\":\"test\"\x7d,\"metadata\":null\x7d\x7d" := by
  rfl

/-- C5, at the example's third request: with `Input` and `Metadata` set to
`api.JsonListString{}` (empty raw bytes, none of the three states) the
encoder writes the keys `input` and `metadata` with an empty byte sequence as
content: in the payload text nothing stands between `"input":` and the comma,
nor between `"metadata":` and the closing brace. -/
theorem emptyFieldsUpdate_emits_empty_content :
    (JsonListString.raw "").state = none ∧
      contentsOf "input"
        (emptyFieldsUpdate "2025-01-01T00:00:00Z" "\x7b\"result\":\"test\"\x7d").encodeFields = [""] ∧
      contentsOf "metadata"
        (emptyFieldsUpdate "2025-01-01T00:00:00Z" "\x7b\"result\":\"test\"\x7d").encodeFields = [""] ∧
      (emptyFieldsUpdate "2025-01-01T00:00:00Z" "\x7b\"result\":\"test\"\x7d").encode =
        "\x7b\"end_time\":\"2025-01-01T00:00:00Z\",\"input\":,\"output\":\x7b\"result\":\"test\"\x7d,\"metadata\":\x7d" := by
  refine ⟨by decide, by decide, by decide, by rfl⟩

end Api
